import Mathlib

/-
Verification of the Session State and Interaction Journal core of
life_guide_scripture.py.  The Python source is shallowly embedded: the
Streamlit session state becomes an explicit SessionState record threaded
through every handler, external effects (the AI provider call, HTTP
fetches, file reads, the wall clock) become explicit parameters, and each
handler becomes a pure function from inputs and prior state to next state.
-/

namespace LifeGuide

/-- One faith theme from the FAITH_BACKGROUNDS table: an image URL and a
short description, as in the source dictionary values. -/
structure ThemeEntry where
  url : String
  description : String
deriving DecidableEq

/-- The FAITH_BACKGROUNDS mapping of the source, as a key-entry list in its
declaration order (Python dicts preserve insertion order). -/
def FAITH_BACKGROUNDS : List (String × ThemeEntry) :=
  [ ("Hinduism",
      { url := "https://images.unsplash.com/photo-1599092027257-28b80e0d9a6b?auto=format&fit=crop&w=1200&q=80"
        description := "Sacred Mandala and Spiritual Patterns" }),
    ("Christianity",
      { url := "https://images.unsplash.com/photo-1559327615-cd4628902d4a?auto=format&fit=crop&w=1200&q=80"
        description := "Light and Serenity" }),
    ("Islam",
      { url := "https://images.unsplash.com/photo-1529333166437-7750a6dd5a70?auto=format&fit=crop&w=1200&q=80"
        description := "Islamic Geometric Patterns" }),
    ("Buddhism",
      { url := "https://images.unsplash.com/photo-1465101162946-4377e57745c3?auto=format&fit=crop&w=1200&q=80"
        description := "Peaceful Zen Garden" }),
    ("Judaism",
      { url := "https://images.unsplash.com/photo-1606148162298-69e1f7a47c0c?auto=format&fit=crop&w=1200&q=80"
        description := "Star of David and Heritage" }),
    ("Sikhism",
      { url := "https://images.unsplash.com/photo-1506744038136-46273834b3fb?auto=format&fit=crop&w=1200&q=80"
        description := "Golden Temple Inspired" }),
    ("Spiritualism",
      { url := "https://images.unsplash.com/photo-1506905925346-21bda4d32df4?auto=format&fit=crop&w=1200&q=80"
        description := "Cosmic and Spiritual Energy" }),
    ("Taoism",
      { url := "https://images.unsplash.com/photo-1506126613408-eca07ce68773?auto=format&fit=crop&w=1200&q=80"
        description := "Yin-Yang Balance" }),
    ("Atheism",
      { url := "https://images.unsplash.com/photo-1519904981063-b0cf448d479e?auto=format&fit=crop&w=1200&q=80"
        description := "Universe and Nature" }) ]

/-- One journal entry appended by the seek-guidance handler: the dictionary
pushed onto st.session_state.user_data. -/
structure JournalEntry where
  faith : String
  path : String
  trouble : String
  response : String
  timestamp : String
deriving DecidableEq

/-- The st.session_state.user_preferences dictionary. -/
structure Preferences where
  faith : String
  favorite_path : String
deriving DecidableEq

/-- The per-session Streamlit state the core handlers read and write. -/
structure SessionState where
  user_data : List JournalEntry
  user_preferences : Preferences
  reminder_triggered : Bool
  notification_counter : Nat
  background_image : Option String
  custom_bg_path : Option String
  current_bg_type : String
deriving DecidableEq

/-- The fresh session state built by the initialization block of the
source (lines 74-96). -/
def initialState : SessionState :=
  { user_data := []
    user_preferences := { faith := "", favorite_path := "Find Help" }
    reminder_triggered := false
    notification_counter := 0
    background_image := none
    custom_bg_path := none
    current_bg_type := "default" }

/-- show_notification: every call increments the notification counter by
one; the toast text and icon do not touch session state. -/
def show_notification (s : SessionState) : SessionState :=
  { s with notification_counter := s.notification_counter + 1 }

/-- The fixed reminder schedule of check_and_show_reminder. -/
def reminder_hours : List Nat := [9, 12, 15, 18, 21]

/-- check_and_show_reminder, with the wall-clock hour passed explicitly and
the state restricted to the one field it touches.  Returns (fired, next
value of reminder_triggered).  The source fires when the hour is scheduled
and the flag is unset, clears the flag when the hour is unscheduled, and
otherwise leaves the flag alone. -/
def check_and_show_reminder (current_hour : Nat) (reminder_triggered : Bool) :
    Bool × Bool :=
  if current_hour ∈ reminder_hours ∧ reminder_triggered = false then
    (true, true)
  else if current_hour ∉ reminder_hours then
    (false, false)
  else
    (false, reminder_triggered)

/-- shouldFireSpec follows the words of the specification (section 4.3), for
comparison with the code: the state is an optional last-fired hour; the gate
fires when the current hour is scheduled and differs from the last-fired
hour, recording the hour; an unscheduled hour resets the state to none. -/
def shouldFireSpec (currentHour : Nat) (lastFiredHour : Option Nat) :
    Bool × Option Nat :=
  if currentHour ∈ reminder_hours then
    if lastFiredHour ≠ some currentHour then (true, some currentHour)
    else (false, lastFiredHour)
  else
    (false, none)

/-- Python str.lower() as the source applies it to the ASCII catalog keys
and inputs: charwise lowercasing. -/
def lowerStr (s : String) : String :=
  ⟨s.data.map Char.toLower⟩

/-- The bidirectional substring test of the scripture-background loop:
faith.lower() in faith_key.lower() or faith_key.lower() in faith.lower(),
with the Python in operator on strings read as substring containment. -/
def faithMatches (faith faith_key : String) : Bool :=
  decide ((lowerStr faith).data <:+: (lowerStr faith_key).data) ||
  decide ((lowerStr faith_key).data <:+: (lowerStr faith).data)

/-- The resolution part of the for-loop over FAITH_BACKGROUNDS.keys() in
main (lines 519-527): scan the catalog in declaration order and stop at the
first key the bidirectional substring test accepts. -/
def resolveLoop (faith : String) :
    List (String × ThemeEntry) → Option (String × ThemeEntry)
  | [] => none
  | e :: rest => if faithMatches faith e.1 then some e else resolveLoop faith rest

/-- resolveByFreeText: the free-text faith resolution over the full
catalog. -/
def resolveByFreeText (faith : String) : Option (String × ThemeEntry) :=
  resolveLoop faith FAITH_BACKGROUNDS

/-- Outcome of the HTTP fetch inside set_background_from_url: a 200
response, a non-200 response, or a raised exception. -/
inductive FetchOutcome
  | success
  | httpError
  | exception
deriving DecidableEq

/-- set_background_from_url: on a 200 response the CSS is injected and
current_bg_type becomes faith, returning True; on a non-200 response or an
exception a warning is shown and False is returned with the state
untouched. -/
def set_background_from_url (fetch : FetchOutcome) (s : SessionState) :
    SessionState × Bool :=
  match fetch with
  | .success => ({ s with current_bg_type := "faith" }, true)
  | .httpError => (s, false)
  | .exception => (s, false)

/-- set_background_from_file: on a successful read the CSS is injected and
current_bg_type becomes custom, returning True; on an exception a warning
is shown and False is returned with the state untouched. -/
def set_background_from_file (read_ok : Bool) (s : SessionState) :
    SessionState × Bool :=
  if read_ok then ({ s with current_bg_type := "custom" }, true)
  else (s, false)

/-- The Scripture Theme branch of show_background_settings: apply the URL
background; on success show a success notification and store the selected
faith into the preferences; on failure show an error notification. -/
def apply_scripture_theme (selected_faith : String) (fetch : FetchOutcome)
    (s : SessionState) : SessionState :=
  let r := set_background_from_url fetch s
  if r.2 then
    let s2 := show_notification r.1
    { s2 with user_preferences := { s2.user_preferences with faith := selected_faith } }
  else
    show_notification r.1

/-- The Upload Image branch of show_background_settings: store the temp
path, try the file background; on success show a notification, on failure
clear the stored custom path. -/
def apply_upload_image (temp_path : String) (read_ok : Bool)
    (s : SessionState) : SessionState :=
  let s1 := { s with custom_bg_path := some temp_path }
  let r := set_background_from_file read_ok s1
  if r.2 then show_notification r.1
  else { r.1 with custom_bg_path := none }

/-- The Local File Path branch of show_background_settings: when the file
exists, store the path and try the file background, showing a notification
on success and doing nothing more on failure; when the file does not exist,
warn and clear the stored custom path. -/
def apply_local_file_path (local_path : String) (file_exists read_ok : Bool)
    (s : SessionState) : SessionState :=
  if file_exists then
    let s1 := { s with custom_bg_path := some local_path }
    let r := set_background_from_file read_ok s1
    if r.2 then show_notification r.1 else r.1
  else
    { s with custom_bg_path := none }

/-- The body of the Scripture BG for-loop in main for one candidate list:
at the first matching key apply the URL background (notifying on success)
and break; when no key matches, show the informational faith list, which
leaves the state unchanged. -/
def autoBgLoop (faith : String) (fetch : FetchOutcome) (s : SessionState) :
    List (String × ThemeEntry) → SessionState
  | [] => s
  | e :: rest =>
    if faithMatches faith e.1 then
      let r := set_background_from_url fetch s
      if r.2 then show_notification r.1 else r.1
    else
      autoBgLoop faith fetch s rest

/-- The Scripture BG button handler in main (lines 519-527): the loop runs
only when the submitted faith string is non-empty (Python truthiness of the
guard auto_bg and faith). -/
def auto_bg_handler (faith : String) (fetch : FetchOutcome)
    (s : SessionState) : SessionState :=
  if faith = "" then s else autoBgLoop faith fetch s FAITH_BACKGROUNDS

/-- Appending a journal entry: st.session_state.user_data.append. -/
def append_entry (e : JournalEntry) (s : SessionState) : SessionState :=
  { s with user_data := s.user_data ++ [e] }

/-- The chronological journal view: iteration over user_data. -/
def viewChronological (s : SessionState) : List JournalEntry :=
  s.user_data

/-- The most-recent-first journal view: reversed(user_data) in
show_user_history, which builds a fresh reversed traversal. -/
def viewMostRecentFirst (s : SessionState) : List JournalEntry :=
  s.user_data.reverse

/-- Python string slicing str of the form s[:n]: the first n characters, or
all of them when the string is shorter. -/
def pyTake (n : Nat) (str : String) : String :=
  ⟨str.data.take n⟩

/-- The summary show_user_history renders for one entry: the concern cut at
150 characters and the guidance cut at 300 characters, each with the
three-dot marker the source concatenates unconditionally. -/
def summarizeEntry (e : JournalEntry) : String × String :=
  (pyTake 150 e.trouble ++ "...", pyTake 300 e.response ++ "...")

/-- show_user_history: renders the reversed journal with per-entry
summaries and leaves the session state untouched. -/
def show_user_history (s : SessionState) : SessionState × List (String × String) :=
  (s, s.user_data.reverse.map summarizeEntry)

/-- How one run of the seek-guidance handler ended. -/
inductive Outcome
  | success
  | validationWarning
  | providerError
deriving DecidableEq

/-- Result of one run of the seek-guidance handler: the next session state,
whether the provider was invoked, and which branch ran. -/
structure SeekResult where
  state : SessionState
  providerCalled : Bool
  outcome : Outcome

/-- The Seek Guidance branch of main (lines 535-607), with the provider
call replaced by its outcome: empty faith or empty concern takes the
validation-warning branch without calling the provider; otherwise the
preferences are updated when requested, the provider is called, and on
success the exchange is appended to the journal with a success
notification, while a provider exception is caught and surfaced with an
error notification and no append. -/
def seek_guidance (faith path trouble : String) (save_prefs : Bool)
    (providerResult : Except String String) (timestamp : String)
    (s : SessionState) : SeekResult :=
  if faith = "" ∨ trouble = "" then
    { state := show_notification s, providerCalled := false,
      outcome := .validationWarning }
  else
    let s1 := if save_prefs then
        { s with user_preferences := { s.user_preferences with faith := faith } }
      else s
    match providerResult with
    | .ok t =>
      let s2 := append_entry
        { faith := faith, path := path, trouble := trouble,
          response := t, timestamp := timestamp } s1
      { state := show_notification s2, providerCalled := true,
        outcome := .success }
    | .error _ =>
      { state := show_notification s1, providerCalled := true,
        outcome := .providerError }

/-- The resolution loop is the first-match scan over the candidate list:
it agrees with List.find? for the bidirectional match test. -/
theorem resolveLoop_eq_find (faith : String) (l : List (String × ThemeEntry)) :
    resolveLoop faith l = l.find? (fun e => faithMatches faith e.1) := by
  induction l with
  | nil => rfl
  | cons e rest ih =>
    by_cases h : faithMatches faith e.1 <;>
      simp [resolveLoop, List.find?, h, ih]

/-- C3: resolveByFreeText is the first match, in declaration order with
Hinduism first over the 9 canonical keys, of the lowercased bidirectional
substring-containment test; it is deterministic; "hindu" resolves to the
Hinduism entry and "xyz" yields no match. -/
theorem c3_resolve_by_free_text :
    (∀ faith : String,
        resolveByFreeText faith
          = FAITH_BACKGROUNDS.find? (fun e => faithMatches faith e.1))
    ∧ (∀ faith key : String,
        faithMatches faith key = true ↔
          ((lowerStr faith).data <:+: (lowerStr key).data
            ∨ (lowerStr key).data <:+: (lowerStr faith).data))
    ∧ FAITH_BACKGROUNDS.map Prod.fst =
        ["Hinduism", "Christianity", "Islam", "Buddhism", "Judaism",
         "Sikhism", "Spiritualism", "Taoism", "Atheism"]
    ∧ (∀ faith : String, resolveByFreeText faith = resolveByFreeText faith)
    ∧ (resolveByFreeText "hindu").map Prod.fst = some "Hinduism"
    ∧ resolveByFreeText "xyz" = none := by
  refine ⟨fun faith => resolveLoop_eq_find faith FAITH_BACKGROUNDS,
    fun faith key => ?_, by decide, fun _ => rfl, by decide, by decide⟩
  simp [faithMatches]

/-- C4 amended: the reminder gate fires exactly when the current hour is in
the schedule and the boolean fired flag is unset, and the next flag value
equals schedule membership of the current hour (set inside the schedule,
reset outside it); the state is a single flag and does not record which
hour fired. -/
theorem c4_reminder_gate_amended :
    (∀ (h : Nat) (t : Bool),
        check_and_show_reminder h t
          = ((decide (h ∈ reminder_hours)) && !t, decide (h ∈ reminder_hours)))
    ∧ reminder_hours = [9, 12, 15, 18, 21] := by
  refine ⟨fun h t => ?_, rfl⟩
  by_cases hmem : h ∈ reminder_hours <;> cases t <;>
    simp [check_and_show_reminder, hmem]

/-- C4 counterexample: after firing at hour 9, evaluating at hour 12 does
not fire in the code even though 12 is in the schedule and differs from
the last fired hour, whereas the claimed last-fired-hour rule, stated by
shouldFireSpec, does fire there; so fire is not equivalent to membership
plus a differing last-fired hour. -/
theorem c4_boolean_flag_counterexample :
    (check_and_show_reminder 12 (check_and_show_reminder 9 false).2).1 = false
    ∧ (12 ∈ reminder_hours)
    ∧ shouldFireSpec 12 (shouldFireSpec 9 none).2 = (true, some 12) := by decide

/-- C5: from a fresh never-fired state, hour 9 fires and records the
firing, a second evaluation at hour 9 does not fire and leaves the state
unchanged, and hour 10 does not fire and resets the state; the same trace
holds for the specification-level gate with its optional last-fired
hour. -/
theorem c5_reminder_trace :
    check_and_show_reminder 9 false = (true, true)
    ∧ check_and_show_reminder 9 (check_and_show_reminder 9 false).2
        = (false, (check_and_show_reminder 9 false).2)
    ∧ check_and_show_reminder 10 (check_and_show_reminder 9 false).2 = (false, false)
    ∧ shouldFireSpec 9 none = (true, some 9)
    ∧ shouldFireSpec 9 (shouldFireSpec 9 none).2 = (false, (shouldFireSpec 9 none).2)
    ∧ shouldFireSpec 10 (shouldFireSpec 9 none).2 = (false, none) := by decide

/-- C1: a guidance request with non-empty faith and non-empty concern on
which the provider returns text T appends exactly one journal entry
carrying the submitted faith, path, concern and T, raises the journal
count by exactly one, and raises the notification counter by exactly
one. -/
theorem c1_seek_guidance_success (s : SessionState)
    (faith path trouble T ts : String) (save_prefs : Bool)
    (hf : faith ≠ "") (ht : trouble ≠ "") :
    (seek_guidance faith path trouble save_prefs (Except.ok T) ts s).state.user_data
        = s.user_data ++
          [{ faith := faith, path := path, trouble := trouble,
             response := T, timestamp := ts }]
    ∧ (seek_guidance faith path trouble save_prefs (Except.ok T) ts s).state.user_data.length
        = s.user_data.length + 1
    ∧ (seek_guidance faith path trouble save_prefs (Except.ok T) ts s).state.notification_counter
        = s.notification_counter + 1
    ∧ (seek_guidance faith path trouble save_prefs (Except.ok T) ts s).outcome = .success := by
  have hcond : ¬(faith = "" ∨ trouble = "") := by
    rintro (h | h)
    · exact hf h
    · exact ht h
  cases save_prefs <;>
    simp [seek_guidance, hcond, append_entry, show_notification]

/-- C1 witness: the end-to-end Buddhism scenario evaluated on the fresh
session state. -/
theorem c1_seek_guidance_success_witness :
    (("Buddhism" : String) ≠ "" ∧ ("I feel lost" : String) ≠ "") ∧
    ((seek_guidance "Buddhism" "Seek Purpose" "I feel lost" true
          (Except.ok "Walk gently, seeker.") "2026-10-12T09:00:00"
          initialState).state.user_data
        = initialState.user_data ++
          [{ faith := "Buddhism", path := "Seek Purpose", trouble := "I feel lost",
             response := "Walk gently, seeker.", timestamp := "2026-10-12T09:00:00" }]
    ∧ (seek_guidance "Buddhism" "Seek Purpose" "I feel lost" true
          (Except.ok "Walk gently, seeker.") "2026-10-12T09:00:00"
          initialState).state.user_data.length
        = initialState.user_data.length + 1
    ∧ (seek_guidance "Buddhism" "Seek Purpose" "I feel lost" true
          (Except.ok "Walk gently, seeker.") "2026-10-12T09:00:00"
          initialState).state.notification_counter
        = initialState.notification_counter + 1
    ∧ (seek_guidance "Buddhism" "Seek Purpose" "I feel lost" true
          (Except.ok "Walk gently, seeker.") "2026-10-12T09:00:00"
          initialState).outcome = .success) :=
  ⟨⟨by decide, by decide⟩,
    c1_seek_guidance_success initialState "Buddhism" "Seek Purpose" "I feel lost"
      "Walk gently, seeker." "2026-10-12T09:00:00" true (by decide) (by decide)⟩

/-- C6: when the provider raises, the error is caught and surfaced as the
provider-error outcome, the journal is unchanged, the notification counter
rises by exactly one for the error notification, and the preferences equal
the prior ones except for the update performed before the failing call
when it was requested. -/
theorem c6_provider_error (s : SessionState)
    (faith path trouble err ts : String) (save_prefs : Bool)
    (hf : faith ≠ "") (ht : trouble ≠ "") :
    (seek_guidance faith path trouble save_prefs (Except.error err) ts s).state.user_data
        = s.user_data
    ∧ (seek_guidance faith path trouble save_prefs (Except.error err) ts s).state.notification_counter
        = s.notification_counter + 1
    ∧ (seek_guidance faith path trouble save_prefs (Except.error err) ts s).outcome = .providerError
    ∧ (seek_guidance faith path trouble save_prefs (Except.error err) ts s).providerCalled = true
    ∧ (seek_guidance faith path trouble save_prefs (Except.error err) ts s).state.user_preferences
        = (if save_prefs then { s.user_preferences with faith := faith }
           else s.user_preferences)
    ∧ (seek_guidance faith path trouble save_prefs (Except.error err) ts s).state.current_bg_type
        = s.current_bg_type := by
  have hcond : ¬(faith = "" ∨ trouble = "") := by
    rintro (h | h)
    · exact hf h
    · exact ht h
  cases save_prefs <;>
    simp [seek_guidance, hcond, show_notification]

/-- C6 witness: a failing provider call evaluated on the fresh session
state with no requested preference update. -/
theorem c6_provider_error_witness :
    (("Buddhism" : String) ≠ "" ∧ ("I feel lost" : String) ≠ "") ∧
    ((seek_guidance "Buddhism" "Seek Purpose" "I feel lost" false
          (Except.error "quota exceeded") "2026-10-12T09:00:00"
          initialState).state.user_data
        = initialState.user_data
    ∧ (seek_guidance "Buddhism" "Seek Purpose" "I feel lost" false
          (Except.error "quota exceeded") "2026-10-12T09:00:00"
          initialState).state.notification_counter
        = initialState.notification_counter + 1
    ∧ (seek_guidance "Buddhism" "Seek Purpose" "I feel lost" false
          (Except.error "quota exceeded") "2026-10-12T09:00:00"
          initialState).outcome = .providerError
    ∧ (seek_guidance "Buddhism" "Seek Purpose" "I feel lost" false
          (Except.error "quota exceeded") "2026-10-12T09:00:00"
          initialState).providerCalled = true
    ∧ (seek_guidance "Buddhism" "Seek Purpose" "I feel lost" false
          (Except.error "quota exceeded") "2026-10-12T09:00:00"
          initialState).state.user_preferences
        = (if false then { initialState.user_preferences with faith := "Buddhism" }
           else initialState.user_preferences)
    ∧ (seek_guidance "Buddhism" "Seek Purpose" "I feel lost" false
          (Except.error "quota exceeded") "2026-10-12T09:00:00"
          initialState).state.current_bg_type
        = initialState.current_bg_type) :=
  ⟨⟨by decide, by decide⟩,
    c6_provider_error initialState "Buddhism" "Seek Purpose" "I feel lost"
      "quota exceeded" "2026-10-12T09:00:00" false (by decide) (by decide)⟩

/-- C10: submitting with an empty faith or an empty concern takes the
validation branch: the provider is not called, the journal is unchanged,
the outcome is the validation warning, and the notification counter still
rises by exactly one. -/
theorem c10_empty_input_validation (s : SessionState)
    (faith path trouble ts : String) (save_prefs : Bool)
    (res : Except String String) :
    (seek_guidance "" path trouble save_prefs res ts s).providerCalled = false
    ∧ (seek_guidance "" path trouble save_prefs res ts s).state.user_data = s.user_data
    ∧ (seek_guidance "" path trouble save_prefs res ts s).state.notification_counter
        = s.notification_counter + 1
    ∧ (seek_guidance "" path trouble save_prefs res ts s).outcome = .validationWarning
    ∧ (seek_guidance faith path "" save_prefs res ts s).providerCalled = false
    ∧ (seek_guidance faith path "" save_prefs res ts s).state.user_data = s.user_data
    ∧ (seek_guidance faith path "" save_prefs res ts s).state.notification_counter
        = s.notification_counter + 1
    ∧ (seek_guidance faith path "" save_prefs res ts s).outcome = .validationWarning := by
  refine ⟨rfl, rfl, rfl, rfl, ?_, ?_, ?_, ?_⟩ <;>
    simp [seek_guidance, show_notification]

/-- C2 counterexample: on a three-character concern, far below the
150-character limit, the summary is not the unmodified text: the marker is
appended anyway. -/
theorem c2_marker_counterexample :
    (summarizeEntry { faith := "Buddhism", path := "Find Help",
                      trouble := "abc", response := "ok", timestamp := "t" }).1
        = "abc..."
    ∧ ("abc" : String).length ≤ 150
    ∧ (summarizeEntry { faith := "Buddhism", path := "Find Help",
                        trouble := "abc", response := "ok", timestamp := "t" }).1
        ≠ "abc" := by decide

/-- C2 amended: the summary of an entry is the first 150 concern characters
and first 300 guidance characters, each followed unconditionally by the
three-character ellipsis marker, also when the text is shorter than its
limit; the truncated part is a prefix of the summary, the dropped remainder
is exactly the marker, and the history view leaves the stored state, and
hence every stored entry, unmodified. -/
theorem c2_summarize_amended (e : JournalEntry) (s : SessionState) :
    (summarizeEntry e).1.length = min 150 e.trouble.length + 3
    ∧ (summarizeEntry e).2.length = min 300 e.response.length + 3
    ∧ e.trouble.data.take 150 <+: (summarizeEntry e).1.data
    ∧ e.response.data.take 300 <+: (summarizeEntry e).2.data
    ∧ (summarizeEntry e).1.data.drop (min 150 e.trouble.length) = "...".data
    ∧ (summarizeEntry e).2.data.drop (min 300 e.response.length) = "...".data
    ∧ (show_user_history s).1 = s := by
  refine ⟨?_, ?_, ⟨"...".data, rfl⟩, ⟨"...".data, rfl⟩, ?_, ?_, rfl⟩
  · show (e.trouble.data.take 150 ++ "...".data).length = min 150 e.trouble.length + 3
    simp [List.length_take]
  · show (e.response.data.take 300 ++ "...".data).length = min 300 e.response.length + 3
    simp [List.length_take]
  · show (e.trouble.data.take 150 ++ "...".data).drop (min 150 e.trouble.length) = "...".data
    rw [show min 150 e.trouble.length = (e.trouble.data.take 150).length from
      (List.length_take 150 e.trouble.data).symm]
    exact List.drop_left _ _
  · show (e.response.data.take 300 ++ "...".data).drop (min 300 e.response.length) = "...".data
    rw [show min 300 e.response.length = (e.response.data.take 300).length from
      (List.length_take 300 e.response.data).symm]
    exact List.drop_left _ _

/-- C7 amended: every failing background application leaves the background
mode unchanged; the URL flow leaves the whole state unchanged up to the
error notification, the upload flow clears the stored custom path on
failure, but the local-file-path flow with an existing unreadable file
leaves the stored custom path set to the attempted path. -/
theorem c7_background_failure_amended (s : SessionState) (f p : String) :
    set_background_from_url .httpError s = (s, false)
    ∧ set_background_from_url .exception s = (s, false)
    ∧ apply_scripture_theme f .httpError s = show_notification s
    ∧ apply_scripture_theme f .exception s = show_notification s
    ∧ (apply_upload_image p false s).current_bg_type = s.current_bg_type
    ∧ (apply_upload_image p false s).custom_bg_path = none
    ∧ (apply_upload_image p false s).notification_counter = s.notification_counter
    ∧ (apply_local_file_path p true false s).current_bg_type = s.current_bg_type
    ∧ (apply_local_file_path p true false s).custom_bg_path = some p
    ∧ (apply_local_file_path p true false s).notification_counter = s.notification_counter
    ∧ (apply_local_file_path p false false s).current_bg_type = s.current_bg_type
    ∧ (apply_local_file_path p false false s).custom_bg_path = none :=
  ⟨rfl, rfl, rfl, rfl, rfl, rfl, rfl, rfl, rfl, rfl, rfl, rfl⟩

/-- C7 counterexample: loading an existing but unreadable local file leaves
the stored custom background path set to the attempted path while the
previous mode stays active, so part of the background switch is left
partially applied. -/
theorem c7_partial_path_counterexample :
    (apply_local_file_path "bg.jpg" true false initialState).custom_bg_path
        = some "bg.jpg"
    ∧ initialState.custom_bg_path = none
    ∧ (apply_local_file_path "bg.jpg" true false initialState).current_bg_type
        = initialState.current_bg_type := by decide

/-- C8: the most-recent-first view is exactly the reverse of the
chronological view, the history display leaves the store unchanged and is
restartable with identical results, and each append extends the
chronological view by the entry and raises the count by exactly one. -/
theorem c8_journal_views (s : SessionState) (e : JournalEntry) :
    viewMostRecentFirst s = (viewChronological s).reverse
    ∧ (show_user_history s).1 = s
    ∧ show_user_history ((show_user_history s).1) = show_user_history s
    ∧ viewChronological (append_entry e s) = viewChronological s ++ [e]
    ∧ (append_entry e s).user_data.length = s.user_data.length + 1
    ∧ viewMostRecentFirst (append_entry e s) = e :: viewMostRecentFirst s := by
  refine ⟨rfl, rfl, rfl, rfl, ?_, ?_⟩
  · simp [append_entry]
  · simp [viewMostRecentFirst, append_entry]

/-- C9: with an empty faith input the scripture-background action changes
nothing at all, although the matching algorithm itself would accept the
first catalog key, Hinduism, on the empty string. -/
theorem c9_empty_faith_guard (s : SessionState) (fetch : FetchOutcome) :
    auto_bg_handler "" fetch s = s
    ∧ (resolveByFreeText "").map Prod.fst = some "Hinduism" :=
  ⟨rfl, by decide⟩

end LifeGuide
